import Mathlib

/-
Verification of the sqlhelp data-access layer.

The Go source (sqlhelp.go) is shallowly embedded: the SQL connection, the
statement builder and the row cursor are external collaborators, so their
outcomes appear as explicit parameters (`Except Err _` oracles), and each
exported function becomes a Lean function of those outcomes, transcribing
the source's control flow.  Go's `error` is `Option Err` (`none` = nil);
`sql.ErrNoRows` is the distinguished constructor `Err.noRows`.
-/

namespace Sqlhelp

/-- Errors: the distinguished driver value sql.ErrNoRows, and arbitrary other
driver or decode errors, tagged by a message. -/
inductive Err where
| noRows
| other (msg : String)
deriving DecidableEq

/-- One annotated field of a record type, as the Tag Reflector sees it: its
column name, its current value (abstracted to an integer code), whether that
value is the field type's zero value, and whether the column is id-like. -/
structure Field where
column : String
value : Int
isZero : Bool
isIdLike : Bool
deriving DecidableEq

/-- A record is its ordered list of annotated fields (nested structures
already flattened, per the reflector's contract). -/
abbrev Record := List Field

/-- Modelled from the spec: `tagops.ToMap` (the Tag Reflector's `Bindings`),
whose implementation is not under src/.  It returns the ordered
(column, value) bindings of a record: a field is dropped when `omitEmpty` is
set and its value is the zero value, and an id-like field is dropped unless
`includeIdLikeFields` is set. -/
def toMap (a : Record) (omitEmpty includeIdLikeFields : Bool) : List (String × Int) :=
(a.filter (fun f => (!omitEmpty || !f.isZero) && (includeIdLikeFields || !f.isIdLike))).map
  (fun f => (f.column, f.value))

/-- Modelled from the spec: `tagops.Tags` (the Tag Reflector's `Columns`),
whose implementation is not under src/: every declared column, in order,
regardless of the current field values. -/
def tags (a : Record) : List String := a.map (fun f => f.column)

/-- The SET-list map that `Update` passes to the statement builder:
`sq.Update(table).SetMap(tagops.ToMap(a, Tag, true, false))`.  Although the
call site passes false in tagops.ToMap's fourth position, the repository's
own tests attest that this argument does not suppress non-zero id-like
columns: TestUpdate expects `id = $3` inside the SET list with all seven
values of filledStruct bound, and TestInsertPSQL expects the id column and
its bind from the same flag value.  Modelled from that test-attested
behavior: with omitEmpty = true the map holds exactly the record's
non-zero fields, id-like ones included. -/
def updateSetMap (a : Record) : List (String × Int) :=
(a.filter (fun f => !f.isZero)).map (fun f => (f.column, f.value))

/-- The column/value map that `InsertFull` passes to the statement builder:
`tagops.ToMap(a, Tag, omitEmpty, true)`. -/
def insertSetMap (omitEmpty : Bool) (a : Record) : List (String × Int) :=
toMap a omitEmpty true

/-- The id-returning insert statement, as `InsertPSQLFull` assembles it:
table, column/value map, and the suffix appended after the VALUES clause. -/
structure PSQLInsert where
table : String
setMap : List (String × Int)
suffix : String
deriving DecidableEq

/-- Statement assembly of `InsertPSQLFull`:
`sq.Insert(table).SetMap(tagops.ToMap(a, Tag, omitEmpty, false)).Suffix("ON CONFLICT DO NOTHING RETURNING " + idCol)`. -/
def insertPSQLStmt (omitEmpty : Bool) (table idCol : String) (a : Record) : PSQLInsert :=
⟨table, toMap a omitEmpty false, "ON CONFLICT DO NOTHING RETURNING " ++ idCol⟩

/-- Execution phase of `InsertPSQLFull`: `build` is the outcome of
`bld.ToSql()`, `scan` the outcome of `db.QueryRowxContext(...).Scan(&id)`
(a single-row query).  Mirrors: build error returns (0, err); scan error
returns (0, err); otherwise the decoded id with nil error. -/
def insertPSQLRun (build : Except Err Unit) (scan : Except Err Int) : Int × Option Err :=
match build with
| .error e => (0, some e)
| .ok _ =>
  match scan with
  | .error e => (0, some e)
  | .ok id => (id, none)

/-- The outcome of `db.ExecContext` as `database/sql` exposes it: the result
carries a last-inserted id and an affected-row count, each retrievable with
its own error. -/
structure ExecResult where
lastInsertId : Int
lastInsertIdErr : Option Err
rowsAffected : Int
rowsAffectedErr : Option Err
deriving DecidableEq

/-- `InsertFull` after statement assembly: build error returns (0, err);
exec error returns (0, err); then `id, err := res.LastInsertId();
if err != nil { return id, err }; return id, nil`. -/
def insertFullRun (build : Except Err Unit) (exec : Except Err ExecResult) : Int × Option Err :=
match build with
| .error e => (0, some e)
| .ok _ =>
  match exec with
  | .error e => (0, some e)
  | .ok res =>
    match res.lastInsertIdErr with
    | some err => (res.lastInsertId, some err)
    | none => (res.lastInsertId, none)

/-- `Update` after statement assembly: build error returns (0, err); exec
error returns (0, err); then `raff, err := res.RowsAffected();
if err != nil { return raff, err }; return raff, err`. -/
def updateRun (build : Except Err Unit) (exec : Except Err ExecResult) : Int × Option Err :=
match build with
| .error e => (0, some e)
| .ok _ =>
  match exec with
  | .error e => (0, some e)
  | .ok res =>
    match res.rowsAffectedErr with
    | some err => (res.rowsAffected, some err)
    | none => (res.rowsAffected, none)

/-- `SelectRow`: `build` is the outcome of `bld.ToSql()`, `scan` the outcome
of `db.QueryRowxContext(...).StructScan(&res)` (zero matching rows surfaces
as `Err.noRows` from the scan).  On any error the record pointer is nil
(`none`) and the error is returned as-is; otherwise the decoded record. -/
def selectRow (α : Type) (build : Except Err Unit) (scan : Except Err α) :
    Option α × Option Err :=
match build with
| .error e => (none, some e)
| .ok _ =>
  match scan with
  | .error e => (none, some e)
  | .ok v => (some v, none)

/-- `Exists`: `scan` is the outcome of scanning the single row of
`SELECT 1 as X FROM table WHERE ...` into the int64 variable `exists`.
Mirrors: `if err != nil { if errors.Is(err, sql.ErrNoRows) { return false,
nil }; return false, err }; return exists == 1, nil`. -/
def existsRun (scan : Except Err Int) : Bool × Option Err :=
match scan with
| .error e => if e = Err.noRows then (false, none) else (false, some e)
| .ok v => (v == 1, none)

/-- What `rows.Next` + `rows.StructScan` produce for one row of a cursor:
either a decoded record, or a decode error (the freshly declared receiver
`var t T` stays at the type's zero value). -/
inductive RowOutcome (α : Type) where
| ok (a : α)
| scanErr (e : Err)
deriving DecidableEq

/-- A live cursor: the rows `rows.Next`/`StructScan` will produce, and the
terminal error `rows.Err()` reports after natural exhaustion. -/
structure Cursor (α : Type) where
rows : List (RowOutcome α)
termErr : Option Err
deriving DecidableEq

/-- The (record, error) pair the iterator yields for one row outcome, where
`zero` is the zero value of the record type. -/
def pairOf {α : Type} (zero : α) : RowOutcome α → α × Option Err
| .ok a => (a, none)
| .scanErr e => (zero, some e)

/-- The eager phase of `Select`: build error or query error is returned
immediately and the sequence is nil (`none`); otherwise the cursor is handed
to the lazy iterator. -/
def selectInit (α : Type) (build : Except Err Unit) (query : Except Err (Cursor α)) :
    Option (Cursor α) × Option Err :=
match build with
| .error e => (none, some e)
| .ok _ =>
  match query with
  | .error e => (none, some e)
  | .ok c => (some c, none)

/-- The `for rows.Next()` loop of `Select`'s iterator.  The caller is
modelled by `breakAt`: `some n` means the caller breaks out of its range
loop upon receiving the n-th pair (so that yield call returns false),
`none` means the caller keeps pulling.  Returns the pairs delivered to the
caller and whether the loop was left through the early `return` (yield
returned false). -/
def selectLoop {α : Type} (zero : α) :
    List (RowOutcome α) → Option Nat → List (α × Option Err) × Bool
| [], _ => ([], false)
| r :: rs, none =>
  let rest := selectLoop zero rs none
  (pairOf zero r :: rest.1, rest.2)
| r :: rs, some n =>
  if n ≤ 1 then ([pairOf zero r], true)
  else
    let rest := selectLoop zero rs (some (n - 1))
    (pairOf zero r :: rest.1, rest.2)

/-- The pair the iterator appends after the loop when `rows.Err()` is
non-nil: `var t2 T; yield(t2, err)` (the yield result is ignored, as this is
the last action). -/
def terminalPairs {α : Type} (zero : α) : Option Err → List (α × Option Err)
| some e => [(zero, some e)]
| none => []

/-- One full drive of `Select`'s iterator function.  Transcribes the Go
body: `defer rows.Close()` then the loop; if the loop exits via the early
`return`, the deferred close fires there; otherwise `rows.Err()` is
consulted, the terminal pair (if any) is yielded, and the deferred close
fires at the function's end.  The second component counts the `rows.Close`
calls performed on the exit path actually taken. -/
def selectRun {α : Type} (zero : α) (cur : Cursor α) (breakAt : Option Nat) :
    List (α × Option Err) × Nat :=
let r := selectLoop zero cur.rows breakAt
if r.2 then
  (r.1, 1)
else
  (r.1 ++ terminalPairs zero cur.termErr, 1)

/-- The TestStruct value `filledStruct` of the repository's own test suite,
as the reflector sees it: seven annotated columns, all at non-zero values
(bool_t=true, created_at=testDate, id=1, int_t=2, name="test",
nested_int=3, street="street"), with the primary-key column `id` the only
id-like one.  Non-integer values are abstracted to distinct integer codes;
id keeps its value 1. -/
def filledStructRec : Record :=
[⟨"bool_t", 101, false, false⟩,
 ⟨"created_at", 102, false, false⟩,
 ⟨"id", 1, false, true⟩,
 ⟨"int_t", 2, false, false⟩,
 ⟨"name", 103, false, false⟩,
 ⟨"nested_int", 3, false, false⟩,
 ⟨"street", 104, false, false⟩]

/-- Helper: a caller that never breaks receives one pair per row and the loop
exits normally (not through the early return). -/
theorem selectLoop_none_eq {α : Type} (zero : α) (rows : List (RowOutcome α)) :
    selectLoop zero rows none = (rows.map (pairOf zero), false) := by
  induction rows with
  | nil => rfl
  | cons r rs ih => simp [selectLoop, ih]

/-- C1: the columns and values in Update's SET list (as the repository's own
tests attest them at the call site's flags) are exactly those the spec's tag
reflector produces with omitEmpty = true and includeIdLikeFields = true:
id-like fields are included in the SET list when non-empty — concretely, at
the test suite's filledStruct the binding ("id", 1) is in the SET list. -/
theorem update_set_list_id_included (a : Record) :
    updateSetMap a = toMap a true true
  ∧ ("id", (1 : Int)) ∈ updateSetMap filledStructRec := by
  constructor
  · simp [updateSetMap, toMap]
  · decide

/-- C2 counterexample: Exists does look at the content of the returned row —
`return exists == 1, nil` — so a scanned row whose value is not 1 makes it
return false even though a row was returned without error. -/
theorem exists_row_content_counterexample :
    existsRun (Except.ok 0) ≠ (true, (none : Option Err)) := by decide

/-- C2 (amended): when the single-row exists query yields a row without
error, Exists returns with nil error and its boolean is the comparison of
the scanned value with 1 — true exactly when the row carries the value 1,
which the `SELECT 1 as X` projection always produces on a conforming
backend. -/
theorem exists_scan_value (v : Int) :
    (v = 1 → existsRun (Except.ok v) = (true, none))
  ∧ (v ≠ 1 → existsRun (Except.ok v) = (false, none)) := by
  constructor
  · intro h; subst h; rfl
  · intro h
    have hb : (v == 1) = false := beq_eq_false_iff_ne.mpr h
    simp [existsRun, hb]

/-- Witness for exists_scan_value at the concrete scanned values 1 and 0. -/
theorem exists_scan_value_witness :
    existsRun (Except.ok 1) = (true, none) ∧ existsRun (Except.ok 0) = (false, none) :=
  ⟨(exists_scan_value 1).1 rfl, (exists_scan_value 0).2 (by decide)⟩

/-- C3: when row k of the result set fails to decode (k = recs.length here),
a caller that keeps pulling receives rows 0..k-1 decoded successfully, then
the pair (zero-value record, that error) at position k, and the remaining
rows (and any terminal pair) after it: the iterator does not auto-abort on a
single row's decode error. -/
theorem select_decode_error_isolation {α : Type} (zero : α) (recs : List α) (e : Err)
    (post : List (RowOutcome α)) (term : Option Err) :
    (selectRun zero ⟨recs.map RowOutcome.ok ++ RowOutcome.scanErr e :: post, term⟩ none).1
      = recs.map (fun r => (r, none)) ++ (zero, some e) :: post.map (pairOf zero)
        ++ terminalPairs zero term := by
  simp [selectRun, selectLoop_none_eq, pairOf, Function.comp]

/-- C4: on every exit path of a driven iteration — early break by the caller
at any position, natural exhaustion, with or without decode errors or a
terminal cursor error — the deferred rows.Close runs exactly once. -/
theorem select_cursor_closed_once {α : Type} (zero : α) (cur : Cursor α)
    (breakAt : Option Nat) :
    (selectRun zero cur breakAt).2 = 1 := by
  rcases h : selectLoop zero cur.rows breakAt with ⟨ps, early⟩
  cases early <;> simp [selectRun, h]

/-- C5: Exists maps the zero-rows condition sql.ErrNoRows to (false, nil) —
not an error — and propagates any other execution or decode error as-is with
a false result. -/
theorem exists_zero_rows_not_error (e : Err) (h : e ≠ Err.noRows) :
    existsRun (Except.error Err.noRows) = (false, none)
  ∧ existsRun (Except.error e) = (false, some e) := by
  refine ⟨rfl, ?_⟩
  simp [existsRun, h]

/-- Witness for exists_zero_rows_not_error at a concrete non-noRows error. -/
theorem exists_zero_rows_not_error_witness :
    existsRun (Except.error Err.noRows) = (false, none)
  ∧ existsRun (Except.error (Err.other "boom")) = (false, some (Err.other "boom")) :=
  exists_zero_rows_not_error (Err.other "boom") (by decide)

/-- C6: SelectRow returns no record together with an error whenever building,
execution or decode fails; zero matching rows surfaces as the distinguished
noRows error (an error outcome, with no record), whereas Exists maps the
same condition to a nil error. -/
theorem selectRow_not_found (α : Type) :
    selectRow α (Except.ok ()) (Except.error Err.noRows) = (none, some Err.noRows)
  ∧ (∀ e : Err, selectRow α (Except.ok ()) (Except.error e) = (none, some e))
  ∧ (∀ e : Err, ∀ scan : Except Err α, selectRow α (Except.error e) scan = (none, some e))
  ∧ (existsRun (Except.error Err.noRows)).2 = none := by
  exact ⟨rfl, fun e => rfl, fun e scan => rfl, rfl⟩

/-- C7: after natural exhaustion with the caller still pulling, a cursor
whose rows.Err() is non-nil makes the sequence yield exactly one final
(zero-value record, terminal error) pair before ending; with a nil
rows.Err() no extra pair is yielded. -/
theorem select_terminal_error_pair {α : Type} (zero : α) (rows : List (RowOutcome α)) :
    (∀ e : Err, (selectRun zero ⟨rows, some e⟩ none).1
        = rows.map (pairOf zero) ++ [(zero, some e)])
  ∧ (selectRun zero ⟨rows, none⟩ none).1 = rows.map (pairOf zero) := by
  constructor
  · intro e; simp [selectRun, selectLoop_none_eq, terminalPairs]
  · simp [selectRun, selectLoop_none_eq, terminalPairs]

/-- C8: InsertPSQLFull assembles its column/value list from the reflector
with includeIdLikeFields=false (so, under the spec's reflector semantics,
keeping exactly the non-id-like fields that survive the omitEmpty rule),
appends the suffix `ON CONFLICT DO NOTHING RETURNING idCol`, executes it as
a single-row query and returns the decoded id; a build, execution or decode
failure yields (0, that error). -/
theorem insertPSQL_returning_shape (omitEmpty : Bool) (table idCol : String) (a : Record) :
    (insertPSQLStmt omitEmpty table idCol a).setMap = toMap a omitEmpty false
  ∧ (insertPSQLStmt omitEmpty table idCol a).suffix
      = "ON CONFLICT DO NOTHING RETURNING " ++ idCol
  ∧ (insertPSQLStmt omitEmpty table idCol a).setMap
      = (a.filter (fun f => (!omitEmpty || !f.isZero) && !f.isIdLike)).map
          (fun f => (f.column, f.value))
  ∧ (∀ id : Int, insertPSQLRun (Except.ok ()) (Except.ok id) = (id, none))
  ∧ (∀ e : Err, insertPSQLRun (Except.ok ()) (Except.error e) = (0, some e))
  ∧ (∀ e : Err, ∀ scan : Except Err Int, insertPSQLRun (Except.error e) scan = (0, some e)) := by
  refine ⟨rfl, rfl, ?_, fun id => rfl, fun e => rfl, fun e scan => rfl⟩
  simp [insertPSQLStmt, toMap]

/-- C9: if building the statement or issuing the query fails, Select returns
that error immediately and the sequence result is nil. -/
theorem select_eager_failure (α : Type) :
    (∀ e : Err, ∀ q : Except Err (Cursor α), selectInit α (Except.error e) q = (none, some e))
  ∧ (∀ e : Err, selectInit α (Except.ok ()) (Except.error e) = (none, some e)) :=
  ⟨fun _ _ => rfl, fun _ => rfl⟩

/-- C10: when execution succeeds but retrieving the post-execution value
fails, the value taken from the result is still returned alongside the
error: InsertFull returns LastInsertId's id with LastInsertId's error, and
Update returns RowsAffected's count with RowsAffected's error. -/
theorem post_exec_value_with_error (res : ExecResult) (e1 e2 : Err) :
    (res.lastInsertIdErr = some e1 →
      insertFullRun (Except.ok ()) (Except.ok res) = (res.lastInsertId, some e1))
  ∧ (res.rowsAffectedErr = some e2 →
      updateRun (Except.ok ()) (Except.ok res) = (res.rowsAffected, some e2)) := by
  constructor
  · intro h; simp [insertFullRun, h]
  · intro h; simp [updateRun, h]

/-- Witness for post_exec_value_with_error at a concrete ExecResult whose
retrieval of both values fails. -/
theorem post_exec_value_with_error_witness :
    insertFullRun (Except.ok ())
        (Except.ok ⟨42, some (Err.other "li"), 7, some (Err.other "ra")⟩)
      = (42, some (Err.other "li"))
  ∧ updateRun (Except.ok ())
        (Except.ok ⟨42, some (Err.other "li"), 7, some (Err.other "ra")⟩)
      = (7, some (Err.other "ra")) :=
  ⟨(post_exec_value_with_error ⟨42, some (Err.other "li"), 7, some (Err.other "ra")⟩
      (Err.other "li") (Err.other "ra")).1 rfl,
   (post_exec_value_with_error ⟨42, some (Err.other "li"), 7, some (Err.other "ra")⟩
      (Err.other "li") (Err.other "ra")).2 rfl⟩

end Sqlhelp
